import Mathlib

/-!
A shallow embedding of the Antrea agent's Service Proxy reconciliation core
(`pkg/agent/proxy`).  The repository snapshot ships only the proxier's test
file (`src/unnamed/part_001`, package `proxy`); the proxier implementation
itself is not under `src/`.  The definitions below are therefore modelled
from the specification (`spec.md` sections 3, 4 and 6), with every behaviour
pinned wherever the test file's mock expectations determine it
(install/uninstall sequencing, group selection, endpoint-flow reference
counting, route handling, label filtering, `GetServiceFlowKeys`).

IP addresses are abstracted to `Nat`; transport protocols are abstracted to
`Nat` (the tests only distinguish TCP from UDP).  A single proxier instance
models one address family (dual-stack runs two independent instances).
-/

/-- Modelled from the spec: `ServicePortKey` - the identity
`(namespace, name, port-name, protocol)` of one service port (`spec.md` section 3,
`k8sproxy.ServicePortName` plus protocol in the tests). -/
structure SvcKey where
  ns : String
  name : String
  portName : String
  protocol : Nat
deriving DecidableEq, Repr

/-- Modelled from the spec: one backend record (`EndpointInfo`).  A backend is
local iff its node name matches the proxy's hostname (`spec.md` section 4.1,
"Locality determination"). -/
structure Endpoint where
  ip : Nat
  port : Nat
  nodeName : Option String
deriving DecidableEq, Repr

/-- Modelled from the spec: per-port desired state (`ServicePortInfo`,
`spec.md` section 3).  `nodePort = 0` encodes "no node port"; `affinity` is the
ClientIP session-affinity marker with its raw (unclamped) timeout in seconds;
`headless` and `proxyNameLabel` carry the labels the service tracker filters on
(`spec.md` section 4.1). -/
structure ServInfo where
  clusterIP : Nat
  port : Nat
  nodePort : Nat
  externalIPs : List Nat
  ingressIPs : List Nat
  internalLocal : Bool
  externalLocal : Bool
  affinity : Bool
  affinitySeconds : Nat
  nested : Bool
  headless : Bool
  proxyNameLabel : Option String
deriving DecidableEq, Repr

/-- Modelled from the spec: the proxier's configuration knobs
(`spec.md` section 6.5). -/
structure ProxyConfig where
  hostname : String
  proxyName : Option String
  proxyAll : Bool
  proxyLoadBalancerIPs : Bool
  supportNestedService : Bool
deriving DecidableEq, Repr

/-- Modelled from the spec: the dataplane and host-route operations the
reconciler emits (`spec.md` sections 6.1 and 6.2).  `installServiceFlows`
carries (group, cluster-group, ip, port, protocol, affinity-timeout,
isExternal, isNested); `addNodePort` / `deleteNodePort` drop the node-address
list, which the model does not track. -/
inductive Op where
  | installEndpointFlows (protocol : Nat) (eps : List Endpoint)
  | uninstallEndpointFlows (protocol : Nat) (eps : List Endpoint)
  | installServiceGroup (gid : Nat) (affinity : Bool) (eps : List Endpoint)
  | uninstallServiceGroup (gid : Nat)
  | installServiceFlows (gid cgid ip port protocol timeout : Nat)
      (isExternal isNested : Bool)
  | uninstallServiceFlows (ip port protocol : Nat)
  | addNodePort (port protocol : Nat)
  | deleteNodePort (port protocol : Nat)
  | addExternalIPRoute (ip : Nat)
  | deleteExternalIPRoute (ip : Nat)
deriving DecidableEq, Repr

/-- Association-list lookup (first match). -/
def lookupA {α β : Type} [DecidableEq α] : List (α × β) → α → Option β
  | [], _ => none
  | (k, v) :: rest, key => if k = key then some v else lookupA rest key

/-- Association-list erase: drop every entry whose key is `key`. -/
def eraseA {α β : Type} [DecidableEq α] (m : List (α × β)) (key : α) :
    List (α × β) :=
  m.filter (fun kv => decide (kv.1 ≠ key))

/-- Association-list update: bind `key` to `v`, dropping any previous
binding. -/
def setA {α β : Type} [DecidableEq α] (m : List (α × β)) (key : α) (v : β) :
    List (α × β) :=
  (key, v) :: eraseA m key

/-- Modelled from the spec: the forwarding-group allocator (`spec.md`
section 4.3, `types.NewGroupCounter` / `openflow.GroupAllocator` in the tests).
IDs start at 1; released IDs go to a free list and are reused first. -/
structure GroupCounter where
  nextID : Nat
  recycled : List Nat
  table : List ((SvcKey × Bool) × Nat)
deriving DecidableEq, Repr

def GroupCounter.empty : GroupCounter := ⟨1, [], []⟩

/-- `AllocateIfNotExist(key, local)`: idempotently hand out the group ID for
one `(ServicePortKey, local-only)` tuple, reusing the free list first. -/
def GroupCounter.allocateIfNotExist (gc : GroupCounter) (k : SvcKey) (l : Bool) :
    Nat × GroupCounter :=
  match lookupA gc.table (k, l) with
  | some gid => (gid, gc)
  | none =>
    match gc.recycled with
    | gid :: rest => (gid, ⟨gc.nextID, rest, ((k, l), gid) :: gc.table⟩)
    | [] => (gc.nextID, ⟨gc.nextID + 1, [], ((k, l), gc.nextID) :: gc.table⟩)

/-- `Get(key, local)`: retrieve without allocating. -/
def GroupCounter.get (gc : GroupCounter) (k : SvcKey) (l : Bool) : Option Nat :=
  lookupA gc.table (k, l)

/-- `Recycle(key, local)`: release the ID onto the free list. -/
def GroupCounter.recycle (gc : GroupCounter) (k : SvcKey) (l : Bool) : GroupCounter :=
  match lookupA gc.table (k, l) with
  | some gid => ⟨gc.nextID, gid :: gc.recycled, eraseA gc.table (k, l)⟩
  | none => gc

/-- Modelled from the spec: the proxier state (`proxier` struct): change-tracker
output maps (`serviceMap` / `endpointsMap`), installed-state mirrors
(`serviceInstalledMap` / `endpointsInstalledMap`), the group allocator, the
shared-endpoint reference counter keyed by `(protocol, backend-ip,
backend-port)` (`spec.md` section 4.2, "Endpoint-flow sharing") and the
external-IP route reference table (`spec.md` section 4.4). -/
structure Proxier where
  cfg : ProxyConfig
  servicesSynced : Bool
  endpointsSynced : Bool
  serviceMap : List (SvcKey × ServInfo)
  endpointsMap : List (SvcKey × List Endpoint)
  serviceInstalledMap : List (SvcKey × ServInfo)
  endpointsInstalledMap : List (SvcKey × List Endpoint)
  groupCounter : GroupCounter
  endpointRefCounter : List ((Nat × Nat × Nat) × Nat)
  serviceIPRouteReferences : List (Nat × List SvcKey)
deriving Repr

def newProxier (cfg : ProxyConfig) : Proxier :=
  ⟨cfg, false, false, [], [], [], [], GroupCounter.empty, [], []⟩

abbrev EpRefs := List ((Nat × Nat × Nat) × Nat)

abbrev RouteRefs := List (Nat × List SvcKey)

/-- The per-family virtual IP used for node-port DNAT
(`agentconfig.VirtualNodePortDNATIPv4` in the tests), abstracted to a fixed
number. -/
def virtualNodePortDNATIP : Nat := 169254000252

def isLocalEndpoint (hostname : String) (e : Endpoint) : Bool :=
  e.nodeName == some hostname

def localEndpoints (hostname : String) (eps : List Endpoint) : List Endpoint :=
  eps.filter (isLocalEndpoint hostname)

/-- Whether the service has an externally reachable path (node port or
administrator-assigned external IPs under `proxyAll`, or load-balancer ingress
IPs under `proxyLoadBalancerIPs`). -/
def hasExternalAddresses (cfg : ProxyConfig) (svc : ServInfo) : Bool :=
  (cfg.proxyAll && (svc.nodePort != 0 || !svc.externalIPs.isEmpty)) ||
  (cfg.proxyLoadBalancerIPs && !svc.ingressIPs.isEmpty)

/-- The endpoints whose dataplane flows this service requires: when
internal-traffic-policy is Local and there is no external path, only local
backends; otherwise every backend (the cluster-wide group needs them). -/
def relevantEndpoints (cfg : ProxyConfig) (svc : ServInfo) (eps : List Endpoint) :
    List Endpoint :=
  if svc.internalLocal && !(hasExternalAddresses cfg svc) then
    localEndpoints cfg.hostname eps
  else eps

/-- The local-only flags of the groups kept live for one service: without an
external path a single group keyed by the internal policy; with an external
path, the cluster group alone when both policies are Cluster, and otherwise
both the local-only and cluster groups (`spec.md` section 4.2 "Group
selection", pinned by `testLoadBalancerAdd` / `testNodePortAdd`). -/
def groupSet (cfg : ProxyConfig) (svc : ServInfo) : List Bool :=
  if !(hasExternalAddresses cfg svc) then [svc.internalLocal]
  else if svc.internalLocal == svc.externalLocal then
    if svc.internalLocal then [true, false] else [false]
  else [svc.internalLocal, svc.externalLocal]

def groupMembers (cfg : ProxyConfig) (eps : List Endpoint) (l : Bool) :
    List Endpoint :=
  if l then localEndpoints cfg.hostname eps else eps

/-- The affinity timeout handed to `InstallServiceFlows`: clamped to the
16-bit maximum, zero when affinity is off (`spec.md` section 4.5). -/
def affinityTimeout (svc : ServInfo) : Nat :=
  if svc.affinity then min svc.affinitySeconds 65535 else 0

def epFlowKey (protocol : Nat) (e : Endpoint) : Nat × Nat × Nat :=
  (protocol, e.ip, e.port)

def epRefCount (refs : EpRefs) (key : Nat × Nat × Nat) : Nat :=
  (lookupA refs key).getD 0

/-- Reference-count the endpoints being installed for one service; returns the
updated counter and the endpoints whose flows are new to the dataplane
(count was zero). -/
def addEndpointRefs (protocol : Nat) (refs : EpRefs) :
    List Endpoint → EpRefs × List Endpoint
  | [] => (refs, [])
  | e :: rest =>
    let c := epRefCount refs (epFlowKey protocol e)
    let r := addEndpointRefs protocol (setA refs (epFlowKey protocol e) (c + 1)) rest
    (r.1, if c = 0 then e :: r.2 else r.2)

/-- Drop one reference per endpoint; returns the endpoints whose flows just
became unreferenced (count reached zero). -/
def dropEndpointRefs (protocol : Nat) (refs : EpRefs) :
    List Endpoint → EpRefs × List Endpoint
  | [] => (refs, [])
  | e :: rest =>
    let c := epRefCount refs (epFlowKey protocol e)
    let r := dropEndpointRefs protocol (setA refs (epFlowKey protocol e) (c - 1)) rest
    (r.1, if c ≤ 1 then e :: r.2 else r.2)

/-- Endpoint-flow reconciliation for one service: install flows only for
backends not yet referenced by any service, uninstall only flows whose last
reference went away (`spec.md` section 4.2, "Endpoint-flow sharing"). -/
def endpointsOps (protocol : Nat) (refs : EpRefs)
    (installed relevantEps : List Endpoint) : EpRefs × List Op :=
  let added := relevantEps.filter (fun e => decide (e ∉ installed))
  let removed := installed.filter (fun e => decide (e ∉ relevantEps))
  let ra := addEndpointRefs protocol refs added
  let rd := dropEndpointRefs protocol ra.1 removed
  (rd.1,
   (if ra.2.isEmpty then [] else [Op.installEndpointFlows protocol ra.2]) ++
   (if rd.2.isEmpty then [] else [Op.uninstallEndpointFlows protocol rd.2]))

/-- Record that service `k` references external IP `ip`; `AddExternalIPRoute`
fires only on the 0-to-1 transition (`spec.md` section 4.4). -/
def acquireRoute (refs : RouteRefs) (k : SvcKey) (ip : Nat) :
    RouteRefs × List Op :=
  let ks := (lookupA refs ip).getD []
  if k ∈ ks then (refs, [])
  else (setA refs ip (k :: ks),
        if ks.isEmpty then [Op.addExternalIPRoute ip] else [])

/-- Drop service `k`'s reference on external IP `ip`; `DeleteExternalIPRoute`
fires only when the reference set becomes empty. -/
def releaseRoute (refs : RouteRefs) (k : SvcKey) (ip : Nat) :
    RouteRefs × List Op :=
  let ks := (lookupA refs ip).getD []
  let ks2 := ks.filter (fun x => decide (x ≠ k))
  (setA refs ip ks2,
   if ks2.isEmpty && !ks.isEmpty then [Op.deleteExternalIPRoute ip] else [])

def clusterIPFlowOp (cfg : ProxyConfig) (k : SvcKey) (svc : ServInfo)
    (gInt : Nat) : Op :=
  Op.installServiceFlows gInt 0 svc.clusterIP svc.port k.protocol
    (affinityTimeout svc) false (svc.nested && cfg.supportNestedService)

/-- Install one service flow plus its reference-counted host route for each
externally advertised IP. -/
def installIPFlowsAndRoutes (k : SvcKey) (svc : ServInfo) (egid cgid : Nat)
    (refs : RouteRefs) : List Nat → RouteRefs × List Op
  | [] => (refs, [])
  | ip :: rest =>
    let ra := acquireRoute refs k ip
    let rr := installIPFlowsAndRoutes k svc egid cgid ra.1 rest
    (rr.1,
     Op.installServiceFlows egid cgid ip svc.port k.protocol
       (affinityTimeout svc) true false :: (ra.2 ++ rr.2))

/-- Uninstall one service flow plus its reference-counted host route for each
externally advertised IP (the port is taken from the previously installed
service info). -/
def uninstallIPFlowsAndRoutes (k : SvcKey) (port : Nat) (refs : RouteRefs) :
    List Nat → RouteRefs × List Op
  | [] => (refs, [])
  | ip :: rest =>
    let ra := releaseRoute refs k ip
    let rr := uninstallIPFlowsAndRoutes k port ra.1 rest
    (rr.1, Op.uninstallServiceFlows ip port k.protocol :: (ra.2 ++ rr.2))

/-- Install the full set of service flows for one service: the cluster-IP flow
referencing the internal group, then (when an external path exists) the
node-port, external-IP and ingress-IP flows referencing the external group and
carrying the cluster group ID (`spec.md` section 4.2 action table, rows
"new service"). -/
def installFlowsPhase (cfg : ProxyConfig) (k : SvcKey) (svc : ServInfo)
    (gc : GroupCounter) (refs : RouteRefs) :
    GroupCounter × RouteRefs × List Op :=
  let a1 := gc.allocateIfNotExist k svc.internalLocal
  let gInt := a1.1
  let base := [clusterIPFlowOp cfg k svc gInt]
  if hasExternalAddresses cfg svc then
    let a2 := a1.2.allocateIfNotExist k svc.externalLocal
    let gExt := a2.1
    let a3 := a2.2.allocateIfNotExist k false
    let gCluster := a3.1
    let npOps :=
      if cfg.proxyAll && svc.nodePort != 0 then
        [Op.installServiceFlows gExt gCluster virtualNodePortDNATIP svc.nodePort
           k.protocol (affinityTimeout svc) true false,
         Op.addNodePort svc.nodePort k.protocol]
      else []
    let ext :=
      if cfg.proxyAll then
        installIPFlowsAndRoutes k svc gExt gCluster refs svc.externalIPs
      else (refs, [])
    let ing :=
      if cfg.proxyLoadBalancerIPs then
        installIPFlowsAndRoutes k svc gExt gCluster ext.1 svc.ingressIPs
      else (ext.1, [])
    (a3.2, ing.1, base ++ npOps ++ ext.2 ++ ing.2)
  else (a1.2, refs, base)

/-- Uninstall the full set of service flows installed for one service. -/
def uninstallFlowsPhase (cfg : ProxyConfig) (k : SvcKey) (psvc : ServInfo)
    (refs : RouteRefs) : RouteRefs × List Op :=
  let base := [Op.uninstallServiceFlows psvc.clusterIP psvc.port k.protocol]
  let npOps :=
    if cfg.proxyAll && psvc.nodePort != 0 then
      [Op.uninstallServiceFlows virtualNodePortDNATIP psvc.nodePort k.protocol,
       Op.deleteNodePort psvc.nodePort k.protocol]
    else []
  let ext :=
    if cfg.proxyAll then
      uninstallIPFlowsAndRoutes k psvc.port refs psvc.externalIPs
    else (refs, [])
  let ing :=
    if cfg.proxyLoadBalancerIPs then
      uninstallIPFlowsAndRoutes k psvc.port ext.1 psvc.ingressIPs
    else (ext.1, [])
  (ing.1, base ++ npOps ++ ext.2 ++ ing.2)

def installGroupsOps (cfg : ProxyConfig) (k : SvcKey) (svc : ServInfo)
    (eps : List Endpoint) (gc : GroupCounter) :
    List Bool → GroupCounter × List Op
  | [] => (gc, [])
  | l :: rest =>
    let a := gc.allocateIfNotExist k l
    let r := installGroupsOps cfg k svc eps a.2 rest
    (r.1, Op.installServiceGroup a.1 svc.affinity (groupMembers cfg eps l) :: r.2)

def uninstallStaleGroup (gc : GroupCounter) (k : SvcKey) (l : Bool) :
    GroupCounter × List Op :=
  match gc.get k l with
  | some gid => (gc.recycle k l, [Op.uninstallServiceGroup gid])
  | none => (gc, [])

/-- (Re)install every group the service now needs and uninstall (and recycle)
any previously allocated group no longer in the set. -/
def groupsPhase (cfg : ProxyConfig) (k : SvcKey) (svc : ServInfo)
    (eps : List Endpoint) (gc : GroupCounter) : GroupCounter × List Op :=
  let gset := groupSet cfg svc
  let ins := installGroupsOps cfg k svc eps gc gset
  let ut := if true ∈ gset then (ins.1, []) else uninstallStaleGroup ins.1 k true
  let uf := if false ∈ gset then (ut.1, []) else uninstallStaleGroup ut.1 k false
  (uf.1, ins.2 ++ ut.2 ++ uf.2)

def smallSliceDifference (l r : List Nat) : List Nat :=
  l.filter (fun x => decide (x ∉ r))

/-- The update guard for one already-installed service: true iff anything
must be done (identity, affinity or policy change, endpoint-set drift,
node-port change, or external/ingress IP set change). -/
def syncKeyDecision (p : Proxier) (k : SvcKey) (svc psvc : ServInfo) : Bool :=
  let desiredEps := (lookupA p.endpointsMap k).getD []
  let relevantEps := relevantEndpoints p.cfg svc desiredEps
  let installedEps := (lookupA p.endpointsInstalledMap k).getD []
  let added := relevantEps.filter (fun e => decide (e ∉ installedEps))
  let removed := installedEps.filter (fun e => decide (e ∉ relevantEps))
  let needRemoval : Bool :=
    psvc.clusterIP != svc.clusterIP || psvc.port != svc.port ||
    psvc.affinity != svc.affinity || psvc.affinitySeconds != svc.affinitySeconds
  let needUpdateService : Bool :=
    needRemoval || psvc.internalLocal != svc.internalLocal ||
    psvc.externalLocal != svc.externalLocal
  let needUpdateEndpoints : Bool :=
    !added.isEmpty || !removed.isEmpty || psvc.affinity != svc.affinity ||
    psvc.internalLocal != svc.internalLocal ||
    psvc.externalLocal != svc.externalLocal
  let nodePortChanged : Bool := p.cfg.proxyAll && psvc.nodePort != svc.nodePort
  let delIngress :=
    if p.cfg.proxyLoadBalancerIPs then
      smallSliceDifference psvc.ingressIPs svc.ingressIPs
    else []
  let addIngress :=
    if p.cfg.proxyLoadBalancerIPs then
      smallSliceDifference svc.ingressIPs psvc.ingressIPs
    else []
  let delExternal :=
    if p.cfg.proxyAll then smallSliceDifference psvc.externalIPs svc.externalIPs
    else []
  let addExternal :=
    if p.cfg.proxyAll then smallSliceDifference svc.externalIPs psvc.externalIPs
    else []
  needUpdateService || needUpdateEndpoints || nodePortChanged ||
    !delIngress.isEmpty || !addIngress.isEmpty ||
    !delExternal.isEmpty || !addExternal.isEmpty

/-- First-time installation of one service: endpoint flows, groups, then
service flows and routes (`spec.md` section 4.2 action table, rows
"new service"). -/
def syncKeyFresh (p : Proxier) (k : SvcKey) (svc : ServInfo) : Proxier × List Op :=
  let desiredEps := (lookupA p.endpointsMap k).getD []
  let relevantEps := relevantEndpoints p.cfg svc desiredEps
  let er := endpointsOps k.protocol p.endpointRefCounter [] relevantEps
  let gp := groupsPhase p.cfg k svc desiredEps p.groupCounter
  let fp := installFlowsPhase p.cfg k svc gp.1 p.serviceIPRouteReferences
  ({ p with
      serviceInstalledMap := setA p.serviceInstalledMap k svc,
      endpointsInstalledMap := setA p.endpointsInstalledMap k relevantEps,
      groupCounter := fp.1,
      endpointRefCounter := er.1,
      serviceIPRouteReferences := fp.2.1 },
   er.2 ++ gp.2 ++ fp.2.2)

/-- Apply the pending changes of one already-installed service: identity or
affinity changes force a full flow reinstall (uninstall before install),
policy or endpoint-set changes rebuild the groups and endpoint flows, while
node-port or external/ingress IP set changes are applied per-IP without
touching the remaining flows (`spec.md` section 4.2 action table). -/
def syncKeyWork (p : Proxier) (k : SvcKey) (svc psvc : ServInfo) :
    Proxier × List Op :=
  let desiredEps := (lookupA p.endpointsMap k).getD []
  let relevantEps := relevantEndpoints p.cfg svc desiredEps
  let installedEps := (lookupA p.endpointsInstalledMap k).getD []
  let added := relevantEps.filter (fun e => decide (e ∉ installedEps))
  let removed := installedEps.filter (fun e => decide (e ∉ relevantEps))
  let needRemoval : Bool :=
    psvc.clusterIP != svc.clusterIP || psvc.port != svc.port ||
    psvc.affinity != svc.affinity || psvc.affinitySeconds != svc.affinitySeconds
  let needUpdateService : Bool :=
    needRemoval || psvc.internalLocal != svc.internalLocal ||
    psvc.externalLocal != svc.externalLocal
  let needUpdateEndpoints : Bool :=
    !added.isEmpty || !removed.isEmpty || psvc.affinity != svc.affinity ||
    psvc.internalLocal != svc.internalLocal ||
    psvc.externalLocal != svc.externalLocal
  let nodePortChanged : Bool := p.cfg.proxyAll && psvc.nodePort != svc.nodePort
  let delIngress :=
    if p.cfg.proxyLoadBalancerIPs then
      smallSliceDifference psvc.ingressIPs svc.ingressIPs
    else []
  let addIngress :=
    if p.cfg.proxyLoadBalancerIPs then
      smallSliceDifference svc.ingressIPs psvc.ingressIPs
    else []
  let delExternal :=
    if p.cfg.proxyAll then smallSliceDifference psvc.externalIPs svc.externalIPs
    else []
  let addExternal :=
    if p.cfg.proxyAll then smallSliceDifference svc.externalIPs psvc.externalIPs
    else []
  let er :=
    if needUpdateEndpoints then
      endpointsOps k.protocol p.endpointRefCounter installedEps relevantEps
    else (p.endpointRefCounter, [])
  let gp :=
    if needUpdateEndpoints then
      groupsPhase p.cfg k svc desiredEps p.groupCounter
    else (p.groupCounter, [])
  let fl :=
    if needUpdateService then
      let un := uninstallFlowsPhase p.cfg k psvc p.serviceIPRouteReferences
      let ins := installFlowsPhase p.cfg k svc gp.1 un.1
      (ins.1, ins.2.1, un.2 ++ ins.2.2)
    else
      let aE := gp.1.allocateIfNotExist k svc.externalLocal
      let gExt := aE.1
      let aC := aE.2.allocateIfNotExist k false
      let gCluster := aC.1
      let npOps :=
        (if nodePortChanged && psvc.nodePort != 0 then
           [Op.uninstallServiceFlows virtualNodePortDNATIP psvc.nodePort
              k.protocol,
            Op.deleteNodePort psvc.nodePort k.protocol]
         else []) ++
        (if nodePortChanged && svc.nodePort != 0 then
           [Op.installServiceFlows gExt gCluster virtualNodePortDNATIP
              svc.nodePort k.protocol (affinityTimeout svc) true false,
            Op.addNodePort svc.nodePort k.protocol]
         else [])
      let dE :=
        uninstallIPFlowsAndRoutes k psvc.port p.serviceIPRouteReferences
          delExternal
      let aX := installIPFlowsAndRoutes k svc gExt gCluster dE.1 addExternal
      let dI := uninstallIPFlowsAndRoutes k psvc.port aX.1 delIngress
      let aI := installIPFlowsAndRoutes k svc gExt gCluster dI.1 addIngress
      (aC.2, aI.1, npOps ++ dE.2 ++ aX.2 ++ dI.2 ++ aI.2)
  ({ p with
      serviceInstalledMap := setA p.serviceInstalledMap k svc,
      endpointsInstalledMap := setA p.endpointsInstalledMap k relevantEps,
      groupCounter := fl.1,
      endpointRefCounter := er.1,
      serviceIPRouteReferences := fl.2.1 },
   er.2 ++ gp.2 ++ fl.2.2)

/-- Reconcile one service present in the desired `serviceMap` against the
installed mirrors (`spec.md` section 4.2 action table): first-time services
are fully installed; installed services are diffed and updated only when the
guard reports a pending change. -/
def syncKey (p : Proxier) (k : SvcKey) (svc : ServInfo) : Proxier × List Op :=
  match lookupA p.serviceInstalledMap k with
  | none => syncKeyFresh p k svc
  | some psvc =>
    if syncKeyDecision p k svc psvc then syncKeyWork p k svc psvc else (p, [])

/-- Tear down one service that left the desired state: uninstall its flows,
release its endpoint-flow references (uninstalling flows whose last reference
went away), uninstall and recycle its groups, and clear both installed
mirrors (`spec.md` section 4.2, row "service deleted"). -/
def removeKey (p : Proxier) (k : SvcKey) (psvc : ServInfo) : Proxier × List Op :=
  let un := uninstallFlowsPhase p.cfg k psvc p.serviceIPRouteReferences
  let installedEps := (lookupA p.endpointsInstalledMap k).getD []
  let rd := dropEndpointRefs k.protocol p.endpointRefCounter installedEps
  let epOps :=
    if rd.2.isEmpty then [] else [Op.uninstallEndpointFlows k.protocol rd.2]
  let g1 := uninstallStaleGroup p.groupCounter k true
  let g2 := uninstallStaleGroup g1.1 k false
  ({ p with
      serviceInstalledMap := eraseA p.serviceInstalledMap k,
      endpointsInstalledMap := eraseA p.endpointsInstalledMap k,
      groupCounter := g2.1,
      endpointRefCounter := rd.1,
      serviceIPRouteReferences := un.1 },
   un.2 ++ epOps ++ g1.2 ++ g2.2)

def removeStaleLoop (p : Proxier) : List (SvcKey × ServInfo) → Proxier × List Op
  | [] => (p, [])
  | (k, psvc) :: rest =>
    if (lookupA p.serviceMap k).isSome then removeStaleLoop p rest
    else
      let r1 := removeKey p k psvc
      let r2 := removeStaleLoop r1.1 rest
      (r2.1, r1.2 ++ r2.2)

/-- Remove every installed service that is no longer in the desired state. -/
def removeStaleServices (p : Proxier) : Proxier × List Op :=
  removeStaleLoop p p.serviceInstalledMap

def installLoop (p : Proxier) : List (SvcKey × ServInfo) → Proxier × List Op
  | [] => (p, [])
  | (k, svc) :: rest =>
    let r1 := syncKey p k svc
    let r2 := installLoop r1.1 rest
    (r2.1, r1.2 ++ r2.2)

/-- Reconcile every service in the desired state against the mirrors. -/
def installServices (p : Proxier) : Proxier × List Op :=
  installLoop p p.serviceMap

/-- One sync cycle (`syncProxyRules`): a no-op until both trackers report the
initial listing; otherwise stale services are torn down and every desired
service is reconciled (`spec.md` section 4.2). -/
def syncProxyRules (p : Proxier) : Proxier × List Op :=
  if p.servicesSynced && p.endpointsSynced then
    let r1 := removeStaleServices p
    let r2 := installServices r1.1
    (r2.1, r1.2 ++ r2.2)
  else (p, [])

/-- The service tracker's label filter (`spec.md` section 4.1): headless
services are always skipped; with a configured proxy name only services
carrying exactly that label value are accepted; without one only unlabelled
services are accepted. -/
def serviceAccepted (cfg : ProxyConfig) (svc : ServInfo) : Bool :=
  !svc.headless && svc.proxyNameLabel == cfg.proxyName

/-- `OnServiceUpdate(prev, curr)` collapsed onto the desired map: a rejected or
absent current object leaves or removes the entry. -/
def onServiceUpdate (p : Proxier) (k : SvcKey) (curr : Option ServInfo) : Proxier :=
  match curr with
  | some svc =>
    if serviceAccepted p.cfg svc then
      { p with serviceMap := setA p.serviceMap k svc }
    else p
  | none => { p with serviceMap := eraseA p.serviceMap k }

/-- `OnEndpointsUpdate` / `OnEndpointSliceUpdate` collapsed onto the desired
endpoints map. -/
def onEndpointsUpdate (p : Proxier) (k : SvcKey) (curr : Option (List Endpoint)) :
    Proxier :=
  match curr with
  | some eps => { p with endpointsMap := setA p.endpointsMap k eps }
  | none => { p with endpointsMap := eraseA p.endpointsMap k }

def onServiceSynced (p : Proxier) : Proxier := { p with servicesSynced := true }

def onEndpointsSynced (p : Proxier) : Proxier := { p with endpointsSynced := true }

/-- `GetServiceFlowKeys(name, namespace)`: group IDs of every installed port of
the named service plus a found flag; an uninstalled service yields
`([], false)` whether it is unknown or merely not yet synced (`spec.md`
section 6.4). -/
def GetServiceFlowKeys (p : Proxier) (name ns : String) : List Nat × Bool :=
  p.serviceInstalledMap.foldl
    (fun acc kv =>
      if kv.1.ns == ns && kv.1.name == name then
        (acc.1 ++ (p.groupCounter.get kv.1 false).toList ++
          (p.groupCounter.get kv.1 true).toList, true)
      else acc)
    ([], false)

/-- A proxier that has absorbed its initial listings (both `OnSynced` marks)
and holds the given desired maps; such states are exactly what the event
operations (`onServiceUpdate`, `onEndpointsUpdate`, `onServiceSynced`,
`onEndpointsSynced`) produce from `newProxier` before the first sync. -/
def readyProxier (cfg : ProxyConfig) (svcs : List (SvcKey × ServInfo))
    (eps : List (SvcKey × List Endpoint)) : Proxier :=
  { (newProxier cfg) with
    servicesSynced := true
    endpointsSynced := true
    serviceMap := svcs
    endpointsMap := eps }

/-- Default test configuration: ClusterIP-only proxying (`proxyAll = false`),
load-balancer IPs proxied, no nested services, no proxy-name label. -/
def cfgDefault : ProxyConfig := ⟨"node-a", none, false, true, false⟩

/-- Configuration with `proxyAll` enabled (NodePort / external IPs proxied). -/
def cfgProxyAll : ProxyConfig := ⟨"node-a", none, true, true, false⟩

/-- A plain ClusterIP service: no node port, no external or ingress IPs,
Cluster traffic policies, no affinity, no labels. -/
def mkClusterIPService (ip port : Nat) : ServInfo :=
  ⟨ip, port, 0, [], [], false, false, false, 0, false, false, none⟩

def affinityService (ip port np secs : Nat) : ServInfo :=
  ⟨ip, port, np, [], [], false, false, true, secs, false, false, none⟩

def gfService (ip port : Nat) : ServInfo :=
  ⟨ip, port, 30008, [], [], true, false, false, 0, false, false, none⟩

/-- Number of live forwarding groups for one service-port key. -/
def liveGroups (p : Proxier) (k : SvcKey) : Nat :=
  ((p.groupCounter.get k true).toList ++ (p.groupCounter.get k false).toList).length

def c3Service (hasNP il el : Bool) (ip port : Nat) : ServInfo :=
  ⟨ip, port, cond hasNP 30008 0, [], [], il, el, false, 0, false, false, none⟩

def c3State (k : SvcKey) (hasNP il el : Bool) (ip port a b : Nat) : Proxier :=
  readyProxier cfgProxyAll [(k, c3Service hasNP il el ip port)]
    [(k, [⟨a, 8080, none⟩, ⟨b, 9090, some "node-a"⟩])]

def llKey : SvcKey := ⟨"ns", "svc", "80", 6⟩

def c4Service (il : Bool) (ip port xip : Nat) : ServInfo :=
  ⟨ip, port, 0, [xip], [], il, false, false, 0, true, false, none⟩

def Op.isInstallEndpointFlows : Op → Bool
  | Op.installEndpointFlows _ _ => true
  | _ => false

def Op.isUninstallEndpointFlows : Op → Bool
  | Op.uninstallEndpointFlows _ _ => true
  | _ => false

/-- Delete a service and its endpoints (the two tracker events a service
removal produces). -/
def deleteService (p : Proxier) (k : SvcKey) : Proxier :=
  onEndpointsUpdate (onServiceUpdate p k none) k none

def c1State0 (k1 k2 : SvcKey) (ip1 port1 ip2 port2 eip eport : Nat) : Proxier :=
  readyProxier cfgDefault
    [(k1, mkClusterIPService ip1 port1), (k2, mkClusterIPService ip2 port2)]
    [(k1, [⟨eip, eport, none⟩]), (k2, [⟨eip, eport, none⟩])]

def c8Key : SvcKey := ⟨"ns", "svc", "80", 6⟩

def c8Sticky (secs : Nat) : ServInfo :=
  ⟨41, 80, 30008, [], [500], false, false, true, secs, false, false, none⟩

def c8State1 : Proxier :=
  (syncProxyRules (readyProxier cfgProxyAll [(c8Key, c8Sticky 10)]
    [(c8Key, [⟨1001, 80, none⟩])])).1

def c8IngService (ip port x y : Nat) : ServInfo :=
  ⟨ip, port, 30008, [], [x, y], false, false, false, 0, false, false, none⟩

/-- One service is quiet when it is installed and its guard reports no
pending change. -/
def KeyQuiet (p : Proxier) (k : SvcKey) (svc : ServInfo) : Prop :=
  ∃ psvc, lookupA p.serviceInstalledMap k = some psvc ∧
    syncKeyDecision p k svc psvc = false

/-- Installed-state mirror keys are all still desired. -/
def instKeysOK (p : Proxier) : Prop :=
  ∀ kv ∈ p.serviceInstalledMap, (lookupA p.serviceMap kv.1).isSome

@[simp] theorem lookupA_nil {α β : Type} [DecidableEq α] (key : α) :
    lookupA ([] : List (α × β)) key = none := rfl

theorem lookupA_cons {α β : Type} [DecidableEq α] (k : α) (v : β) (m : List (α × β))
    (key : α) :
    lookupA ((k, v) :: m) key = if k = key then some v else lookupA m key := rfl

@[simp] theorem lookupA_cons_self {α β : Type} [DecidableEq α] (k : α) (v : β)
    (m : List (α × β)) : lookupA ((k, v) :: m) k = some v := by
  simp [lookupA_cons]

theorem lookupA_cons_ne {α β : Type} [DecidableEq α] {k key : α} (v : β)
    (m : List (α × β)) (h : k ≠ key) :
    lookupA ((k, v) :: m) key = lookupA m key := by
  simp [lookupA_cons, h]

theorem eraseA_cons {α β : Type} [DecidableEq α] (a : α) (b : β)
    (m : List (α × β)) (key : α) :
    eraseA ((a, b) :: m) key =
      if a = key then eraseA m key else (a, b) :: eraseA m key := by
  by_cases h : a = key <;> simp [eraseA, List.filter_cons, h]

@[simp] theorem lookupA_eraseA_self {α β : Type} [DecidableEq α]
    (m : List (α × β)) (key : α) : lookupA (eraseA m key) key = none := by
  induction m with
  | nil => rfl
  | cons kv rest ih =>
    obtain ⟨a, b⟩ := kv
    rw [eraseA_cons]
    by_cases h : a = key
    · simpa [h] using ih
    · rw [if_neg h, lookupA_cons, if_neg h]
      exact ih

theorem lookupA_eraseA_ne {α β : Type} [DecidableEq α] {k key : α}
    (m : List (α × β)) (h : k ≠ key) :
    lookupA (eraseA m k) key = lookupA m key := by
  induction m with
  | nil => rfl
  | cons kv rest ih =>
    obtain ⟨a, b⟩ := kv
    rw [eraseA_cons]
    by_cases hak : a = k
    · have hn : a ≠ key := by
        rw [hak]; exact h
      rw [if_pos hak, lookupA_cons, if_neg hn]
      exact ih
    · rw [if_neg hak, lookupA_cons, lookupA_cons]
      by_cases hkey : a = key
      · rw [if_pos hkey, if_pos hkey]
      · rw [if_neg hkey, if_neg hkey]
        exact ih

@[simp] theorem lookupA_setA_self {α β : Type} [DecidableEq α]
    (m : List (α × β)) (key : α) (v : β) :
    lookupA (setA m key v) key = some v := by
  simp [setA]

theorem lookupA_setA_ne {α β : Type} [DecidableEq α] {k key : α}
    (m : List (α × β)) (v : β) (h : k ≠ key) :
    lookupA (setA m k v) key = lookupA m key := by
  rw [setA, lookupA_cons_ne _ _ h]
  exact lookupA_eraseA_ne m h

theorem lookupA_isSome_of_mem {α β : Type} [DecidableEq α] {m : List (α × β)}
    {kv : α × β} (h : kv ∈ m) : (lookupA m kv.1).isSome := by
  induction m with
  | nil => cases h
  | cons hd rest ih =>
    obtain ⟨a, b⟩ := hd
    rcases List.mem_cons.mp h with h1 | h1
    · rw [h1, lookupA_cons, if_pos rfl]
      rfl
    · rw [lookupA_cons]
      by_cases hk : a = kv.1
      · rw [if_pos hk]; rfl
      · rw [if_neg hk]
        exact ih h1

theorem mem_of_mem_eraseA {α β : Type} [DecidableEq α] {m : List (α × β)}
    {kv : α × β} {k : α} (h : kv ∈ eraseA m k) : kv ∈ m :=
  List.mem_of_mem_filter h

theorem mem_setA {α β : Type} [DecidableEq α] {m : List (α × β)}
    {kv : α × β} {k : α} {v : β} (hmem : kv ∈ setA m k v) :
    kv = (k, v) ∨ kv ∈ m := by
  rcases List.mem_cons.mp hmem with h1 | h1
  · exact Or.inl h1
  · exact Or.inr (mem_of_mem_eraseA h1)

theorem filter_not_mem_self {α : Type} [DecidableEq α] (l l' : List α)
    (hsub : ∀ x ∈ l, x ∈ l') : l.filter (fun e => decide (e ∉ l')) = [] := by
  rw [List.eq_nil_iff_forall_not_mem]
  intro x hx
  rcases List.mem_filter.mp hx with ⟨hmem, hdec⟩
  exact (of_decide_eq_true hdec) (hsub x hmem)

theorem smallSliceDifference_self (l : List Nat) :
    smallSliceDifference l l = [] :=
  filter_not_mem_self l l (fun _ hx => hx)

/-- C5: for any session-affinity timeout input, every `InstallServiceFlows`
emitted by the sync carries the clamped value `min input 65535` - the 16-bit
maximum - never a value reduced modulo 2^16. -/
theorem sessionAffinity_timeout_clamped (k : SvcKey) (ip port np secs eip eport : Nat) :
    ∀ g cg fip fport fproto tmo ex ne,
      Op.installServiceFlows g cg fip fport fproto tmo ex ne ∈
        (syncProxyRules (readyProxier cfgProxyAll
          [(k, affinityService ip port np secs)]
          [(k, [⟨eip, eport, none⟩])])).2 →
      tmo = min secs 65535 := by
  intro g cg fip fport fproto tmo ex ne hmem
  by_cases hnp : np = 0 <;>
  · simp [syncProxyRules, readyProxier, newProxier, removeStaleServices,
      removeStaleLoop, installServices, installLoop, syncKey, syncKeyFresh,
      endpointsOps, addEndpointRefs, dropEndpointRefs, epRefCount, epFlowKey,
      groupsPhase, installGroupsOps, groupSet, groupMembers, localEndpoints,
      hasExternalAddresses, relevantEndpoints, installFlowsPhase,
      clusterIPFlowOp, affinityTimeout, installIPFlowsAndRoutes,
      uninstallStaleGroup, GroupCounter.get, GroupCounter.allocateIfNotExist,
      GroupCounter.empty, GroupCounter.recycle, setA, eraseA, lookupA,
      Prod.mk.injEq, affinityService, cfgProxyAll, hnp, acquireRoute] at hmem
    rcases hmem with h | h | h <;> simp_all

theorem groupMembers_nil (cfg : ProxyConfig) (l : Bool) :
    groupMembers cfg [] l = [] := by
  cases l <;> simp [groupMembers, localEndpoints]

theorem relevantEndpoints_nil (cfg : ProxyConfig) (svc : ServInfo) :
    relevantEndpoints cfg svc [] = [] := by
  unfold relevantEndpoints
  split <;> simp [localEndpoints]

theorem groupSet_shape (cfg : ProxyConfig) (svc : ServInfo) :
    ∃ l ls, groupSet cfg svc = l :: ls := by
  unfold groupSet
  split_ifs <;> exact ⟨_, _, rfl⟩

theorem endpointsOps_nil (protocol : Nat) (refs : EpRefs) :
    endpointsOps protocol refs [] [] = (refs, []) := by
  simp [endpointsOps, addEndpointRefs, dropEndpointRefs]

theorem installFlowsPhase_ops (cfg : ProxyConfig) (k : SvcKey) (svc : ServInfo)
    (gc : GroupCounter) (refs : RouteRefs) :
    ∃ rest, (installFlowsPhase cfg k svc gc refs).2.2 =
      clusterIPFlowOp cfg k svc (gc.allocateIfNotExist k svc.internalLocal).1 ::
        rest := by
  unfold installFlowsPhase
  by_cases h : hasExternalAddresses cfg svc = true
  · simp [h]
  · simp [h]

theorem groupsPhase_mem (cfg : ProxyConfig) (k : SvcKey) (svc : ServInfo)
    (eps : List Endpoint) (gc : GroupCounter) :
    ∃ g l, Op.installServiceGroup g svc.affinity (groupMembers cfg eps l) ∈
      (groupsPhase cfg k svc eps gc).2 := by
  obtain ⟨l, ls, hset⟩ := groupSet_shape cfg svc
  refine ⟨(gc.allocateIfNotExist k l).1, l, ?_⟩
  simp only [groupsPhase, hset, installGroupsOps, List.mem_append, List.mem_cons]
  tauto

theorem installFlowsPhase_mem (cfg : ProxyConfig) (k : SvcKey) (svc : ServInfo)
    (gc : GroupCounter) (refs : RouteRefs) :
    clusterIPFlowOp cfg k svc (gc.allocateIfNotExist k svc.internalLocal).1 ∈
      (installFlowsPhase cfg k svc gc refs).2.2 := by
  obtain ⟨rest, hrest⟩ := installFlowsPhase_ops cfg k svc gc refs
  rw [hrest]
  exact List.mem_cons_self _ _

/-- C6: a service present in the service map with no matching endpoints is
still installed by the sync: a service group is installed with the empty
endpoint set, the cluster-IP service flow is installed, and the key appears in
the installed-state mirror. -/
theorem serviceNoEndpoints_installed (k : SvcKey) (svc : ServInfo) :
    ((∃ g, Op.installServiceGroup g svc.affinity [] ∈
        (syncProxyRules (readyProxier cfgProxyAll [(k, svc)] [])).2) ∧
     (∃ g n, Op.installServiceFlows g 0 svc.clusterIP svc.port k.protocol
        (affinityTimeout svc) false n ∈
        (syncProxyRules (readyProxier cfgProxyAll [(k, svc)] [])).2) ∧
     lookupA (syncProxyRules
        (readyProxier cfgProxyAll [(k, svc)] [])).1.serviceInstalledMap k
       = some svc) := by
  have hred : syncProxyRules (readyProxier cfgProxyAll [(k, svc)] []) =
      syncKeyFresh (readyProxier cfgProxyAll [(k, svc)] []) k svc := by
    simp [syncProxyRules, removeStaleServices, removeStaleLoop, installServices,
      installLoop, syncKey, readyProxier, newProxier]
  rw [hred]
  have hops : (syncKeyFresh (readyProxier cfgProxyAll [(k, svc)] []) k svc).2 =
      (groupsPhase cfgProxyAll k svc [] GroupCounter.empty).2 ++
      (installFlowsPhase cfgProxyAll k svc
        (groupsPhase cfgProxyAll k svc [] GroupCounter.empty).1
        []).2.2 := by
    simp [syncKeyFresh, readyProxier, newProxier, relevantEndpoints_nil,
      endpointsOps_nil]
  refine ⟨?_, ?_, ?_⟩
  · obtain ⟨g, l, hg⟩ :=
      groupsPhase_mem cfgProxyAll k svc [] GroupCounter.empty
    rw [groupMembers_nil] at hg
    exact ⟨g, by rw [hops]; exact List.mem_append_left _ hg⟩
  · refine ⟨((groupsPhase cfgProxyAll k svc [] GroupCounter.empty).1.allocateIfNotExist
        k svc.internalLocal).1, svc.nested && cfgProxyAll.supportNestedService, ?_⟩
    have hf := installFlowsPhase_mem cfgProxyAll k svc
      (groupsPhase cfgProxyAll k svc [] GroupCounter.empty).1 []
    rw [hops]
    exact List.mem_append_right _ hf
  · simp [syncKeyFresh, readyProxier, newProxier]

/-- C7: a service ends up installed iff it is not headless-labelled and its
service-proxy-name label equals the configured proxy name as options - both
absent, or both present with the same value; services with a foreign or
missing label, and headless services, are never installed. -/
theorem serviceLabelSelector_filtering (cfg : ProxyConfig) (k : SvcKey) (svc : ServInfo) :
    (lookupA (syncProxyRules (onEndpointsSynced (onServiceSynced
        (onServiceUpdate (newProxier cfg) k (some svc))))).1.serviceInstalledMap
        k).isSome ↔
      (svc.headless = false ∧ svc.proxyNameLabel = cfg.proxyName) := by
  by_cases hacc : serviceAccepted cfg svc = true
  · have hrhs : svc.headless = false ∧ svc.proxyNameLabel = cfg.proxyName := by
      have := hacc
      simp [serviceAccepted, Bool.and_eq_true, beq_iff_eq] at this
      exact ⟨this.1, this.2⟩
    have hlhs : (lookupA (syncProxyRules (onEndpointsSynced (onServiceSynced
        (onServiceUpdate (newProxier cfg) k (some svc))))).1.serviceInstalledMap
        k).isSome := by
      simp [onServiceUpdate, hacc, onServiceSynced, onEndpointsSynced,
        newProxier, syncProxyRules, removeStaleServices, removeStaleLoop,
        installServices, installLoop, syncKey, syncKeyFresh, setA, eraseA]
    simp [hlhs, hrhs]
  · have hrhs : ¬(svc.headless = false ∧ svc.proxyNameLabel = cfg.proxyName) := by
      intro hcon
      apply hacc
      simp [serviceAccepted, Bool.and_eq_true, beq_iff_eq, hcon.1, hcon.2]
    have hlhs : (lookupA (syncProxyRules (onEndpointsSynced (onServiceSynced
        (onServiceUpdate (newProxier cfg) k (some svc))))).1.serviceInstalledMap
        k) = none := by
      simp [onServiceUpdate, hacc, onServiceSynced, onEndpointsSynced,
        newProxier, syncProxyRules, removeStaleServices, removeStaleLoop,
        installServices, installLoop]
    simp [hlhs, hrhs]

/-- C10: `GetServiceFlowKeys` returns `([], false)` whenever the named service
is not currently installed - whether the proxier knows nothing about it, knows
the service without endpoints, or knows service and endpoints but has not yet
synced - and after a successful install returns the found flag with the group
IDs allocated for the service (both the cluster group, ID 2 here, and the
local-only group, ID 1). -/
theorem getServiceFlowKeys_spec (k : SvcKey) (ip port a b eport : Nat) :
    (GetServiceFlowKeys (newProxier cfgProxyAll) k.name k.ns = ([], false)) ∧
    (GetServiceFlowKeys (readyProxier cfgProxyAll [(k, gfService ip port)] [])
      k.name k.ns = ([], false)) ∧
    (GetServiceFlowKeys (readyProxier cfgProxyAll [(k, gfService ip port)]
      [(k, [⟨a, eport, none⟩, ⟨b, eport, some "node-a"⟩])])
      k.name k.ns = ([], false)) ∧
    (GetServiceFlowKeys (syncProxyRules (readyProxier cfgProxyAll
        [(k, gfService ip port)]
        [(k, [⟨a, eport, none⟩, ⟨b, eport, some "node-a"⟩])])).1
      k.name k.ns = ([2, 1], true)) ∧
    ((syncProxyRules (readyProxier cfgProxyAll [(k, gfService ip port)]
        [(k, [⟨a, eport, none⟩, ⟨b, eport, some "node-a"⟩])])).1.groupCounter.get
      k false = some 2) ∧
    ((syncProxyRules (readyProxier cfgProxyAll [(k, gfService ip port)]
        [(k, [⟨a, eport, none⟩, ⟨b, eport, some "node-a"⟩])])).1.groupCounter.get
      k true = some 1) := by
  refine ⟨rfl, rfl, rfl, ?_, ?_, ?_⟩ <;>
  · simp [GetServiceFlowKeys, syncProxyRules, readyProxier, newProxier,
      removeStaleServices, removeStaleLoop, installServices, installLoop,
      syncKey, syncKeyFresh, groupsPhase, installGroupsOps, groupSet,
      groupMembers, localEndpoints, hasExternalAddresses, relevantEndpoints,
      installFlowsPhase, clusterIPFlowOp, affinityTimeout,
      installIPFlowsAndRoutes, uninstallStaleGroup, GroupCounter.get,
      GroupCounter.allocateIfNotExist, GroupCounter.empty, GroupCounter.recycle,
      setA, eraseA, lookupA, Prod.mk.injEq, gfService, cfgProxyAll]

set_option maxHeartbeats 1000000 in
/-- C3 counterexample: a LoadBalancer service whose internal- and
external-traffic policies are both Local keeps TWO live groups after a fresh
sync (the local-only group plus the cluster-wide group carried by the external
path), refuting the claim that matching policies leave exactly one live
group. -/
theorem groupSelection_cex :
    (c3Service true true true 41 80).internalLocal
        = (c3Service true true true 41 80).externalLocal ∧
    liveGroups (syncProxyRules (c3State llKey true true true 41 80 1001 1002)).1
        llKey = 2 := by
  constructor
  · rfl
  · rfl

set_option maxHeartbeats 4000000 in
/-- C3 amended: after a fresh sync the local-only group is live iff the
internal policy is Local or the service has an external path with a Local
external policy; the cluster group is live iff the internal policy is Cluster
or the service has an external path; every local-only group contains only
node-local endpoints; and when both policies are Cluster every installed
service flow references the single cluster group. -/
theorem groupSelection_amended (k : SvcKey) (hasNP il el : Bool) (ip port a b : Nat) :
    (((syncProxyRules (c3State k hasNP il el ip port a b)).1.groupCounter.get
        k true).isSome = (il || (hasNP && el))) ∧
    (((syncProxyRules (c3State k hasNP il el ip port a b)).1.groupCounter.get
        k false).isSome = (!il || hasNP)) ∧
    (∀ g aff l, Op.installServiceGroup g aff l ∈
        (syncProxyRules (c3State k hasNP il el ip port a b)).2 →
      (syncProxyRules (c3State k hasNP il el ip port a b)).1.groupCounter.get
        k true = some g →
      l = [⟨b, 9090, some "node-a"⟩]) ∧
    ((il = false ∧ el = false) → ∀ g cg i pt pr tm ex ne,
      Op.installServiceFlows g cg i pt pr tm ex ne ∈
        (syncProxyRules (c3State k hasNP il el ip port a b)).2 →
      (syncProxyRules (c3State k hasNP il el ip port a b)).1.groupCounter.get
        k false = some g) := by
  have hred : ∀ hNP iL eL,
      syncProxyRules (c3State k hNP iL eL ip port a b) =
        syncKeyFresh (c3State k hNP iL eL ip port a b) k
          (c3Service hNP iL eL ip port) := by
    intro hNP iL eL
    simp [syncProxyRules, removeStaleServices, removeStaleLoop, installServices,
      installLoop, syncKey, c3State, readyProxier, newProxier]
  simp only [hred]
  clear hred
  cases hasNP <;> cases il <;> cases el <;>
  · refine ⟨?_, ?_, ?_, ?_⟩
    · simp [c3State, c3Service, readyProxier, newProxier, syncKeyFresh,
        endpointsOps, addEndpointRefs, dropEndpointRefs, epRefCount, epFlowKey,
        groupsPhase, installGroupsOps, groupSet, groupMembers, localEndpoints,
        isLocalEndpoint, hasExternalAddresses, relevantEndpoints,
        installFlowsPhase, clusterIPFlowOp, affinityTimeout,
        installIPFlowsAndRoutes, uninstallStaleGroup, GroupCounter.get,
        GroupCounter.allocateIfNotExist, GroupCounter.empty,
        GroupCounter.recycle, setA, eraseA, lookupA, Prod.mk.injEq,
        cfgProxyAll, acquireRoute]
    · simp [c3State, c3Service, readyProxier, newProxier, syncKeyFresh,
        endpointsOps, addEndpointRefs, dropEndpointRefs, epRefCount, epFlowKey,
        groupsPhase, installGroupsOps, groupSet, groupMembers, localEndpoints,
        isLocalEndpoint, hasExternalAddresses, relevantEndpoints,
        installFlowsPhase, clusterIPFlowOp, affinityTimeout,
        installIPFlowsAndRoutes, uninstallStaleGroup, GroupCounter.get,
        GroupCounter.allocateIfNotExist, GroupCounter.empty,
        GroupCounter.recycle, setA, eraseA, lookupA, Prod.mk.injEq,
        cfgProxyAll, acquireRoute]
    · intro g aff l hmem hget
      simp [c3State, c3Service, readyProxier, newProxier, syncKeyFresh,
        endpointsOps, addEndpointRefs, dropEndpointRefs, epRefCount, epFlowKey,
        groupsPhase, installGroupsOps, groupSet, groupMembers, localEndpoints,
        isLocalEndpoint, hasExternalAddresses, relevantEndpoints,
        installFlowsPhase, clusterIPFlowOp, affinityTimeout,
        installIPFlowsAndRoutes, uninstallStaleGroup, GroupCounter.get,
        GroupCounter.allocateIfNotExist, GroupCounter.empty,
        GroupCounter.recycle, setA, eraseA, lookupA, Prod.mk.injEq,
        cfgProxyAll, acquireRoute] at hmem hget
      try simp_all
      try (rcases hmem with hmem | hmem <;> simp_all)
    · rintro ⟨hil, hel⟩ g cg i pt pr tm ex ne hmem
      simp [c3State, c3Service, readyProxier, newProxier, syncKeyFresh,
        endpointsOps, addEndpointRefs, dropEndpointRefs, epRefCount, epFlowKey,
        groupsPhase, installGroupsOps, groupSet, groupMembers, localEndpoints,
        isLocalEndpoint, hasExternalAddresses, relevantEndpoints,
        installFlowsPhase, clusterIPFlowOp, affinityTimeout,
        installIPFlowsAndRoutes, uninstallStaleGroup, GroupCounter.get,
        GroupCounter.allocateIfNotExist, GroupCounter.empty,
        GroupCounter.recycle, setA, eraseA, lookupA, Prod.mk.injEq,
        cfgProxyAll, acquireRoute] at hmem ⊢
      try simp_all
      try (rcases hmem with hmem | hmem <;> simp_all)

set_option maxHeartbeats 1000000 in
/-- C2: when an installed service's cluster IP or port changes, the next sync
emits exactly `UninstallServiceFlows` for the old IP and port followed by
`InstallServiceFlows` for the new ones referencing the same group ID (1, the
one allocated at first install and still held by the allocator), with no
endpoint-flow or group operations. -/
theorem serviceClusterIPUpdate_flows (k : SvcKey) (ip1 port1 ip2 port2 eip eport : Nat)
    (hch : ip1 ≠ ip2 ∨ port1 ≠ port2) :
    ((syncProxyRules (onServiceUpdate
        (syncProxyRules (readyProxier cfgDefault
          [(k, mkClusterIPService ip1 port1)] [(k, [⟨eip, eport, none⟩])])).1
        k (some (mkClusterIPService ip2 port2)))).2 =
      [Op.uninstallServiceFlows ip1 port1 k.protocol,
       Op.installServiceFlows 1 0 ip2 port2 k.protocol 0 false false]) ∧
    ((syncProxyRules (readyProxier cfgDefault
        [(k, mkClusterIPService ip1 port1)]
        [(k, [⟨eip, eport, none⟩])])).1.groupCounter.get k false = some 1) := by
  have hb : (ip1 != ip2 || port1 != port2) = true := by
    rcases hch with h | h <;> simp [h]
  constructor <;>
  · simp [syncProxyRules, readyProxier, newProxier, removeStaleServices,
      removeStaleLoop, installServices, installLoop, syncKey, syncKeyFresh,
      syncKeyDecision, syncKeyWork, onServiceUpdate, serviceAccepted,
      endpointsOps, addEndpointRefs, dropEndpointRefs, epRefCount, epFlowKey,
      groupsPhase, installGroupsOps, groupSet, groupMembers, localEndpoints,
      isLocalEndpoint, hasExternalAddresses, relevantEndpoints,
      installFlowsPhase, uninstallFlowsPhase, clusterIPFlowOp, affinityTimeout,
      installIPFlowsAndRoutes, uninstallIPFlowsAndRoutes, smallSliceDifference,
      uninstallStaleGroup, GroupCounter.get, GroupCounter.allocateIfNotExist,
      GroupCounter.empty, GroupCounter.recycle, setA, eraseA, lookupA,
      Prod.mk.injEq, mkClusterIPService, cfgDefault, acquireRoute,
      releaseRoute, hb]

set_option maxHeartbeats 1000000 in
/-- C4: add, sync, delete (service together with its endpoints), sync leaves
both installed-state mirrors without any entry and returns the group allocator
to its pre-add state: the allocation table is empty, the group ID is released
onto the free list and no longer retrievable - for either internal traffic
policy. -/
theorem serviceRoundTrip_clean (k : SvcKey) (il : Bool) (ip port xip eip eport : Nat) :
    ((syncProxyRules (onEndpointsUpdate (onServiceUpdate
        (syncProxyRules (readyProxier cfgProxyAll
          [(k, c4Service il ip port xip)]
          [(k, [⟨eip, eport, none⟩])])).1 k none) k none)).1.serviceInstalledMap
      = []) ∧
    ((syncProxyRules (onEndpointsUpdate (onServiceUpdate
        (syncProxyRules (readyProxier cfgProxyAll
          [(k, c4Service il ip port xip)]
          [(k, [⟨eip, eport, none⟩])])).1 k none) k none)).1.endpointsInstalledMap
      = []) ∧
    ((syncProxyRules (onEndpointsUpdate (onServiceUpdate
        (syncProxyRules (readyProxier cfgProxyAll
          [(k, c4Service il ip port xip)]
          [(k, [⟨eip, eport, none⟩])])).1 k none) k none)).1.groupCounter.table
      = []) ∧
    ((syncProxyRules (onEndpointsUpdate (onServiceUpdate
        (syncProxyRules (readyProxier cfgProxyAll
          [(k, c4Service il ip port xip)]
          [(k, [⟨eip, eport, none⟩])])).1 k none) k none)).1.groupCounter.get
      k il = none) ∧
    (1 ∈ (syncProxyRules (onEndpointsUpdate (onServiceUpdate
        (syncProxyRules (readyProxier cfgProxyAll
          [(k, c4Service il ip port xip)]
          [(k, [⟨eip, eport, none⟩])])).1 k none) k none)).1.groupCounter.recycled) := by
  cases il <;>
    simp [syncProxyRules, readyProxier, newProxier, removeStaleServices,
      removeStaleLoop, installServices, installLoop, syncKey, syncKeyFresh,
      syncKeyDecision, syncKeyWork, removeKey, onServiceUpdate,
      onEndpointsUpdate, serviceAccepted, endpointsOps, addEndpointRefs,
      dropEndpointRefs, epRefCount, epFlowKey, groupsPhase, installGroupsOps,
      groupSet, groupMembers, localEndpoints, isLocalEndpoint,
      hasExternalAddresses, relevantEndpoints, installFlowsPhase,
      uninstallFlowsPhase, clusterIPFlowOp, affinityTimeout,
      installIPFlowsAndRoutes, uninstallIPFlowsAndRoutes, smallSliceDifference,
      uninstallStaleGroup, GroupCounter.get, GroupCounter.allocateIfNotExist,
      GroupCounter.empty, GroupCounter.recycle, setA, eraseA, lookupA,
      Prod.mk.injEq, c4Service, cfgProxyAll, acquireRoute, releaseRoute]

set_option maxHeartbeats 4000000 in
/-- C1: for two services sharing one backend (same protocol, backend IP and
port), the whole lifecycle - install both, delete the first, delete the last -
emits exactly one `InstallEndpointFlows` (at the first install) and exactly one
`UninstallEndpointFlows` (when the last referencing service goes away); the
second install and the first deletion emit neither. -/
theorem servicesWithSameEndpoints_lifecycle (k1 k2 : SvcKey) (ip1 port1 ip2 port2 eip eport : Nat)
    (hk : k1 ≠ k2) (hp : k1.protocol = k2.protocol) :
    ((syncProxyRules (c1State0 k1 k2 ip1 port1 ip2 port2 eip eport)).2.countP
        Op.isInstallEndpointFlows = 1) ∧
    ((syncProxyRules (c1State0 k1 k2 ip1 port1 ip2 port2 eip eport)).2.countP
        Op.isUninstallEndpointFlows = 0) ∧
    ((syncProxyRules (deleteService
        (syncProxyRules (c1State0 k1 k2 ip1 port1 ip2 port2 eip eport)).1
        k1)).2.countP Op.isInstallEndpointFlows = 0) ∧
    ((syncProxyRules (deleteService
        (syncProxyRules (c1State0 k1 k2 ip1 port1 ip2 port2 eip eport)).1
        k1)).2.countP Op.isUninstallEndpointFlows = 0) ∧
    ((syncProxyRules (deleteService (syncProxyRules (deleteService
        (syncProxyRules (c1State0 k1 k2 ip1 port1 ip2 port2 eip eport)).1
        k1)).1 k2)).2.countP Op.isInstallEndpointFlows = 0) ∧
    ((syncProxyRules (deleteService (syncProxyRules (deleteService
        (syncProxyRules (c1State0 k1 k2 ip1 port1 ip2 port2 eip eport)).1
        k1)).1 k2)).2.countP Op.isUninstallEndpointFlows = 1) := by
  have hk2 : k2 ≠ k1 := hk.symm
  simp [c1State0, deleteService, syncProxyRules, readyProxier, newProxier,
    removeStaleServices, removeStaleLoop, installServices, installLoop,
    syncKey, syncKeyFresh, syncKeyDecision, syncKeyWork, removeKey,
    onServiceUpdate, onEndpointsUpdate, serviceAccepted, endpointsOps,
    addEndpointRefs, dropEndpointRefs, epRefCount, epFlowKey, groupsPhase,
    installGroupsOps, groupSet, groupMembers, localEndpoints, isLocalEndpoint,
    hasExternalAddresses, relevantEndpoints, installFlowsPhase,
    uninstallFlowsPhase, clusterIPFlowOp, affinityTimeout,
    installIPFlowsAndRoutes, uninstallIPFlowsAndRoutes, smallSliceDifference,
    uninstallStaleGroup, GroupCounter.get, GroupCounter.allocateIfNotExist,
    GroupCounter.empty, GroupCounter.recycle, setA, eraseA, lookupA,
    Prod.mk.injEq, mkClusterIPService, cfgDefault, acquireRoute, releaseRoute,
    Op.isInstallEndpointFlows, Op.isUninstallEndpointFlows, List.countP_cons,
    hk, hk2, hp]

set_option maxHeartbeats 2000000 in
/-- C8 counterexample: updating only the sticky-affinity seconds of a
LoadBalancer service reinstalls its service flows, emitting
`DeleteExternalIPRoute` followed by `AddExternalIPRoute` for the ingress IP
even though the same service references that IP before and after the update,
refuting the claim that no Delete/Add pair is emitted for an IP whose
reference set stays non-empty across an update. -/
theorem externalIPRoute_cex :
    (Op.deleteExternalIPRoute 500 ∈
      (syncProxyRules (onServiceUpdate c8State1 c8Key (some (c8Sticky 100)))).2) ∧
    (Op.addExternalIPRoute 500 ∈
      (syncProxyRules (onServiceUpdate c8State1 c8Key (some (c8Sticky 100)))).2) ∧
    (lookupA c8State1.serviceIPRouteReferences 500 = some [c8Key]) ∧
    (lookupA (syncProxyRules (onServiceUpdate c8State1 c8Key
        (some (c8Sticky 100)))).1.serviceIPRouteReferences 500 = some [c8Key]) := by
  decide

set_option maxHeartbeats 2000000 in
/-- C8 amended: route programming is reference-counted per IP; an
ingress-IP-set update applies a per-IP diff, so the IP kept across the update
triggers no route or flow operation and keeps its reference entry, while the
removed IP gets exactly `UninstallServiceFlows` plus `DeleteExternalIPRoute`
and the added IP `InstallServiceFlows` plus `AddExternalIPRoute`; only a full
service-flow reinstall (such as an affinity change) releases and re-acquires
an IP. -/
theorem externalIPRoute_refcount_amended (k : SvcKey) (ip port a b c eip eport : Nat)
    (hab : a ≠ b) (hac : a ≠ c) (hbc : b ≠ c) :
    ((syncProxyRules (onServiceUpdate
        (syncProxyRules (readyProxier cfgProxyAll [(k, c8IngService ip port a b)]
          [(k, [⟨eip, eport, none⟩])])).1
        k (some (c8IngService ip port b c)))).2 =
      [Op.uninstallServiceFlows a port k.protocol,
       Op.deleteExternalIPRoute a,
       Op.installServiceFlows 1 1 c port k.protocol 0 true false,
       Op.addExternalIPRoute c]) ∧
    (lookupA (syncProxyRules (readyProxier cfgProxyAll
        [(k, c8IngService ip port a b)]
        [(k, [⟨eip, eport, none⟩])])).1.serviceIPRouteReferences b = some [k]) ∧
    (lookupA (syncProxyRules (onServiceUpdate
        (syncProxyRules (readyProxier cfgProxyAll [(k, c8IngService ip port a b)]
          [(k, [⟨eip, eport, none⟩])])).1
        k (some (c8IngService ip port b c)))).1.serviceIPRouteReferences b =
      some [k]) := by
  have hba : b ≠ a := hab.symm
  have hca : c ≠ a := hac.symm
  have hcb : c ≠ b := hbc.symm
  simp [c8IngService, syncProxyRules, readyProxier, newProxier,
    removeStaleServices, removeStaleLoop, installServices, installLoop,
    syncKey, syncKeyFresh, syncKeyDecision, syncKeyWork, removeKey,
    onServiceUpdate, serviceAccepted, endpointsOps, addEndpointRefs,
    dropEndpointRefs, epRefCount, epFlowKey, groupsPhase, installGroupsOps,
    groupSet, groupMembers, localEndpoints, isLocalEndpoint,
    hasExternalAddresses, relevantEndpoints, installFlowsPhase,
    uninstallFlowsPhase, clusterIPFlowOp, affinityTimeout,
    installIPFlowsAndRoutes, uninstallIPFlowsAndRoutes, smallSliceDifference,
    uninstallStaleGroup, GroupCounter.get, GroupCounter.allocateIfNotExist,
    GroupCounter.empty, GroupCounter.recycle, setA, eraseA, lookupA,
    Prod.mk.injEq, cfgProxyAll, acquireRoute, releaseRoute,
    hab, hac, hbc, hba, hca, hcb]

@[simp] theorem filter_not_mem_id {α : Type} [DecidableEq α] (l : List α) :
    l.filter (fun e => decide (e ∉ l)) = [] :=
  filter_not_mem_self l l (fun _ hx => hx)

theorem ne_of_mem_eraseA {α β : Type} [DecidableEq α] {m : List (α × β)}
    {kv : α × β} {k : α} (h : kv ∈ eraseA m k) : kv.1 ≠ k :=
  of_decide_eq_true (List.mem_filter.mp h).2

theorem syncKey_quiet {p : Proxier} {k : SvcKey} {svc : ServInfo}
    (h : KeyQuiet p k svc) : syncKey p k svc = (p, []) := by
  obtain ⟨psvc, hlk, hdec⟩ := h
  unfold syncKey
  rw [hlk]
  simp [hdec]

theorem syncKeyDecision_self (p : Proxier) (k : SvcKey) (svc : ServInfo)
    (h2 : lookupA p.endpointsInstalledMap k =
      some (relevantEndpoints p.cfg svc ((lookupA p.endpointsMap k).getD []))) :
    syncKeyDecision p k svc svc = false := by
  unfold syncKeyDecision
  rw [h2]
  simp [smallSliceDifference_self]

theorem syncKey_stable (p : Proxier) (k : SvcKey) (svc : ServInfo) :
    (syncKey p k svc).1.cfg = p.cfg ∧
    (syncKey p k svc).1.servicesSynced = p.servicesSynced ∧
    (syncKey p k svc).1.endpointsSynced = p.endpointsSynced ∧
    (syncKey p k svc).1.serviceMap = p.serviceMap ∧
    (syncKey p k svc).1.endpointsMap = p.endpointsMap := by
  unfold syncKey
  cases hlk : lookupA p.serviceInstalledMap k with
  | none => simp [syncKeyFresh]
  | some psvc =>
    by_cases hdec : syncKeyDecision p k svc psvc = true
    · simp [hdec, syncKeyWork]
    · simp [hdec]

theorem syncKey_installed_ne {k' k : SvcKey} (p : Proxier) (svc' : ServInfo)
    (h : k' ≠ k) :
    lookupA (syncKey p k' svc').1.serviceInstalledMap k =
      lookupA p.serviceInstalledMap k := by
  unfold syncKey
  cases hlk : lookupA p.serviceInstalledMap k' with
  | none => simp [syncKeyFresh, lookupA_setA_ne _ _ h]
  | some psvc =>
    by_cases hdec : syncKeyDecision p k' svc' psvc = true
    · simp [hdec, syncKeyWork, lookupA_setA_ne _ _ h]
    · simp [hdec]

theorem syncKey_epsInstalled_ne {k' k : SvcKey} (p : Proxier) (svc' : ServInfo)
    (h : k' ≠ k) :
    lookupA (syncKey p k' svc').1.endpointsInstalledMap k =
      lookupA p.endpointsInstalledMap k := by
  unfold syncKey
  cases hlk : lookupA p.serviceInstalledMap k' with
  | none => simp [syncKeyFresh, lookupA_setA_ne _ _ h]
  | some psvc =>
    by_cases hdec : syncKeyDecision p k' svc' psvc = true
    · simp [hdec, syncKeyWork, lookupA_setA_ne _ _ h]
    · simp [hdec]

theorem syncKeyDecision_congr {p q : Proxier} (k : SvcKey) (svc psvc : ServInfo)
    (hcfg : q.cfg = p.cfg)
    (hem : lookupA q.endpointsMap k = lookupA p.endpointsMap k)
    (hei : lookupA q.endpointsInstalledMap k = lookupA p.endpointsInstalledMap k) :
    syncKeyDecision q k svc psvc = syncKeyDecision p k svc psvc := by
  unfold syncKeyDecision
  rw [hcfg, hem, hei]

theorem syncKey_keyQuiet (p : Proxier) (k : SvcKey) (svc : ServInfo) :
    KeyQuiet (syncKey p k svc).1 k svc := by
  unfold syncKey
  cases hlk : lookupA p.serviceInstalledMap k with
  | none =>
    refine ⟨svc, by simp [syncKeyFresh], ?_⟩
    apply syncKeyDecision_self
    simp [syncKeyFresh]
  | some psvc =>
    by_cases hdec : syncKeyDecision p k svc psvc = true
    · simp only [hdec, if_true]
      refine ⟨svc, by simp [syncKeyWork], ?_⟩
      apply syncKeyDecision_self
      simp [syncKeyWork]
    · simp only [hdec, if_false, Bool.false_eq_true]
      exact ⟨psvc, hlk, by simpa using hdec⟩

theorem keyQuiet_frame {p : Proxier} {k k' : SvcKey} {svc : ServInfo}
    (svc' : ServInfo) (hne : k' ≠ k) (hq : KeyQuiet p k svc) :
    KeyQuiet (syncKey p k' svc').1 k svc := by
  obtain ⟨psvc, hlk, hdec⟩ := hq
  refine ⟨psvc, ?_, ?_⟩
  · rw [syncKey_installed_ne p svc' hne]
    exact hlk
  · rw [syncKeyDecision_congr k svc psvc (syncKey_stable p k' svc').1
      (by rw [(syncKey_stable p k' svc').2.2.2.2])
      (syncKey_epsInstalled_ne p svc' hne)]
    exact hdec

theorem installLoop_keyQuiet_frame {k : SvcKey} {svc : ServInfo}
    (L : List (SvcKey × ServInfo)) (p : Proxier)
    (hn : ∀ kv ∈ L, kv.1 ≠ k) (hq : KeyQuiet p k svc) :
    KeyQuiet (installLoop p L).1 k svc := by
  induction L generalizing p with
  | nil => exact hq
  | cons hd rest ih =>
    obtain ⟨k', svc'⟩ := hd
    simp only [installLoop]
    exact ih (syncKey p k' svc').1
      (fun kv h => hn kv (List.mem_cons_of_mem _ h))
      (keyQuiet_frame svc' (hn (k', svc') (List.mem_cons_self _ _)) hq)

theorem installLoop_stable (L : List (SvcKey × ServInfo)) (p : Proxier) :
    (installLoop p L).1.cfg = p.cfg ∧
    (installLoop p L).1.servicesSynced = p.servicesSynced ∧
    (installLoop p L).1.endpointsSynced = p.endpointsSynced ∧
    (installLoop p L).1.serviceMap = p.serviceMap ∧
    (installLoop p L).1.endpointsMap = p.endpointsMap := by
  induction L generalizing p with
  | nil => exact ⟨rfl, rfl, rfl, rfl, rfl⟩
  | cons hd rest ih =>
    obtain ⟨k', svc'⟩ := hd
    simp only [installLoop]
    obtain ⟨h1, h2, h3, h4, h5⟩ := ih (syncKey p k' svc').1
    obtain ⟨g1, g2, g3, g4, g5⟩ := syncKey_stable p k' svc'
    exact ⟨h1.trans g1, h2.trans g2, h3.trans g3, h4.trans g4, h5.trans g5⟩

theorem installLoop_establishes (L : List (SvcKey × ServInfo)) (p : Proxier)
    (hnodup : (L.map Prod.fst).Nodup) :
    ∀ kv ∈ L, KeyQuiet (installLoop p L).1 kv.1 kv.2 := by
  induction L generalizing p with
  | nil => intro kv h; cases h
  | cons hd rest ih =>
    obtain ⟨k', svc'⟩ := hd
    rcases List.nodup_cons.mp hnodup with ⟨hnotin, htail⟩
    intro kv hkv
    rcases List.mem_cons.mp hkv with he | hm
    · subst he
      simp only [installLoop]
      refine installLoop_keyQuiet_frame rest (syncKey p k' svc').1 ?_
        (syncKey_keyQuiet p k' svc')
      intro kv2 hkv2 hcon
      exact hnotin (List.mem_map.mpr ⟨kv2, hkv2, hcon⟩)
    · simp only [installLoop]
      exact ih (syncKey p k' svc').1 htail kv hm

theorem installLoop_quiet (L : List (SvcKey × ServInfo)) (p : Proxier)
    (h : ∀ kv ∈ L, KeyQuiet p kv.1 kv.2) : installLoop p L = (p, []) := by
  induction L with
  | nil => rfl
  | cons hd rest ih =>
    obtain ⟨k', svc'⟩ := hd
    have h1 : syncKey p k' svc' = (p, []) :=
      syncKey_quiet (h (k', svc') (List.mem_cons_self _ _))
    have h2 : installLoop p rest = (p, []) :=
      ih (fun kv hm => h kv (List.mem_cons_of_mem _ hm))
    simp only [installLoop, h1, h2]
    rfl

theorem removeKey_stable (p : Proxier) (k : SvcKey) (psvc : ServInfo) :
    (removeKey p k psvc).1.cfg = p.cfg ∧
    (removeKey p k psvc).1.servicesSynced = p.servicesSynced ∧
    (removeKey p k psvc).1.endpointsSynced = p.endpointsSynced ∧
    (removeKey p k psvc).1.serviceMap = p.serviceMap ∧
    (removeKey p k psvc).1.endpointsMap = p.endpointsMap ∧
    (removeKey p k psvc).1.serviceInstalledMap = eraseA p.serviceInstalledMap k := by
  simp [removeKey]

theorem removeStaleLoop_stable (L : List (SvcKey × ServInfo)) (p : Proxier) :
    (removeStaleLoop p L).1.cfg = p.cfg ∧
    (removeStaleLoop p L).1.servicesSynced = p.servicesSynced ∧
    (removeStaleLoop p L).1.endpointsSynced = p.endpointsSynced ∧
    (removeStaleLoop p L).1.serviceMap = p.serviceMap ∧
    (removeStaleLoop p L).1.endpointsMap = p.endpointsMap := by
  induction L generalizing p with
  | nil => exact ⟨rfl, rfl, rfl, rfl, rfl⟩
  | cons hd rest ih =>
    obtain ⟨k', psvc⟩ := hd
    by_cases hs : (lookupA p.serviceMap k').isSome
    · simp only [removeStaleLoop, if_pos hs]
      exact ih p
    · simp only [removeStaleLoop, if_neg hs]
      obtain ⟨h1, h2, h3, h4, h5⟩ := ih (removeKey p k' psvc).1
      obtain ⟨g1, g2, g3, g4, g5, _⟩ := removeKey_stable p k' psvc
      exact ⟨h1.trans g1, h2.trans g2, h3.trans g3, h4.trans g4, h5.trans g5⟩

theorem removeStaleLoop_skip (L : List (SvcKey × ServInfo)) (p : Proxier)
    (h : ∀ kv ∈ L, (lookupA p.serviceMap kv.1).isSome) :
    removeStaleLoop p L = (p, []) := by
  induction L with
  | nil => rfl
  | cons hd rest ih =>
    obtain ⟨k', psvc⟩ := hd
    simp only [removeStaleLoop, if_pos (h (k', psvc) (List.mem_cons_self _ _))]
    exact ih (fun kv hm => h kv (List.mem_cons_of_mem _ hm))

theorem removeStaleLoop_instKeysOK (L : List (SvcKey × ServInfo)) (p : Proxier)
    (h : ∀ kv ∈ p.serviceInstalledMap,
      kv ∈ L ∨ (lookupA p.serviceMap kv.1).isSome) :
    instKeysOK (removeStaleLoop p L).1 := by
  induction L generalizing p with
  | nil =>
    intro kv hkv
    rcases h kv hkv with h1 | h1
    · cases h1
    · exact h1
  | cons hd rest ih =>
    obtain ⟨k', psvc⟩ := hd
    by_cases hs : (lookupA p.serviceMap k').isSome
    · simp only [removeStaleLoop, if_pos hs]
      apply ih p
      intro kv hkv
      rcases h kv hkv with h1 | h1
      · rcases List.mem_cons.mp h1 with he | hm
        · right
          rw [he]
          exact hs
        · exact Or.inl hm
      · exact Or.inr h1
    · simp only [removeStaleLoop, if_neg hs]
      apply ih (removeKey p k' psvc).1
      intro kv hkv
      rw [(removeKey_stable p k' psvc).2.2.2.2.2] at hkv
      have hne : kv.1 ≠ k' := ne_of_mem_eraseA hkv
      have hmem : kv ∈ p.serviceInstalledMap := mem_of_mem_eraseA hkv
      rcases h kv hmem with h1 | h1
      · rcases List.mem_cons.mp h1 with he | hm
        · exact absurd (congrArg Prod.fst he) hne
        · exact Or.inl hm
      · right
        rw [(removeKey_stable p k' psvc).2.2.2.1]
        exact h1

theorem syncKey_instKeysOK (p : Proxier) (k : SvcKey) (svc : ServInfo)
    (hp : instKeysOK p) (hk : (lookupA p.serviceMap k).isSome) :
    instKeysOK (syncKey p k svc).1 := by
  intro kv hkv
  rw [(syncKey_stable p k svc).2.2.2.1]
  unfold syncKey at hkv
  rcases hlk : lookupA p.serviceInstalledMap k with _ | psvc <;> rw [hlk] at hkv
  · simp only [syncKeyFresh] at hkv
    rcases mem_setA hkv with he | hm
    · rw [he]
      exact hk
    · exact hp kv hm
  · by_cases hdec : syncKeyDecision p k svc psvc = true
    · simp only [hdec, if_true, syncKeyWork] at hkv
      rcases mem_setA hkv with he | hm
      · rw [he]
        exact hk
      · exact hp kv hm
    · simp only [hdec] at hkv
      simp at hkv
      exact hp kv hkv

theorem installLoop_instKeysOK (L : List (SvcKey × ServInfo)) (p : Proxier)
    (hp : instKeysOK p) (hL : ∀ kv ∈ L, (lookupA p.serviceMap kv.1).isSome) :
    instKeysOK (installLoop p L).1 := by
  induction L generalizing p with
  | nil => exact hp
  | cons hd rest ih =>
    obtain ⟨k', svc'⟩ := hd
    simp only [installLoop]
    apply ih (syncKey p k' svc').1
    · exact syncKey_instKeysOK p k' svc' hp (hL (k', svc') (List.mem_cons_self _ _))
    · intro kv hm
      rw [(syncKey_stable p k' svc').2.2.2.1]
      exact hL kv (List.mem_cons_of_mem _ hm)

/-- C9: a second sync right after any sync, with no events absorbed in
between, emits no dataplane or route operation and leaves the proxier state
unchanged - for every state whose desired service map has no duplicate keys,
which the trackers guarantee. -/
theorem syncProxyRules_idempotent (p : Proxier) (h : (p.serviceMap.map Prod.fst).Nodup) :
    syncProxyRules (syncProxyRules p).1 = ((syncProxyRules p).1, []) := by
  by_cases hs : (p.servicesSynced && p.endpointsSynced) = true
  · have hq1 : (syncProxyRules p).1 =
        (installLoop (removeStaleLoop p p.serviceInstalledMap).1
          (removeStaleLoop p p.serviceInstalledMap).1.serviceMap).1 := by
      simp [syncProxyRules, hs, removeStaleServices, installServices]
    rw [hq1]
    set p1 := (removeStaleLoop p p.serviceInstalledMap).1 with hp1
    set q := (installLoop p1 p1.serviceMap).1 with hq
    have hp1sm : p1.serviceMap = p.serviceMap :=
      (removeStaleLoop_stable p.serviceInstalledMap p).2.2.2.1
    have hqsm : q.serviceMap = p1.serviceMap :=
      (installLoop_stable p1.serviceMap p1).2.2.2.1
    have hfs : q.servicesSynced = p.servicesSynced :=
      ((installLoop_stable p1.serviceMap p1).2.1).trans
        ((removeStaleLoop_stable p.serviceInstalledMap p).2.1)
    have hfe : q.endpointsSynced = p.endpointsSynced :=
      ((installLoop_stable p1.serviceMap p1).2.2.1).trans
        ((removeStaleLoop_stable p.serviceInstalledMap p).2.2.1)
    have hok1 : instKeysOK p1 :=
      removeStaleLoop_instKeysOK p.serviceInstalledMap p (fun kv hkv => Or.inl hkv)
    have hok : instKeysOK q :=
      installLoop_instKeysOK p1.serviceMap p1 hok1
        (fun kv hm => lookupA_isSome_of_mem hm)
    have hnodup1 : (p1.serviceMap.map Prod.fst).Nodup := by
      rw [hp1sm]
      exact h
    have hquiet : ∀ kv ∈ p1.serviceMap, KeyQuiet q kv.1 kv.2 :=
      installLoop_establishes p1.serviceMap p1 hnodup1
    have hrm : removeStaleLoop q q.serviceInstalledMap = (q, []) :=
      removeStaleLoop_skip q.serviceInstalledMap q hok
    have hil : installLoop q q.serviceMap = (q, []) := by
      apply installLoop_quiet
      intro kv hm
      apply hquiet
      rwa [hqsm] at hm
    simp [syncProxyRules, hfs, hfe, hs, removeStaleServices, installServices,
      hrm, hil]
  · simp [syncProxyRules, hs]


/-- Witness for C1 at a concrete pair of services sharing backend
`10.180.0.1:80`. -/
theorem servicesWithSameEndpoints_lifecycle_witness :
    ((⟨"ns", "svc1", "80", 6⟩ : SvcKey) ≠ ⟨"ns", "svc2", "80", 6⟩) ∧
    ((syncProxyRules (c1State0 ⟨"ns", "svc1", "80", 6⟩ ⟨"ns", "svc2", "80", 6⟩
        41 80 42 80 1001 80)).2.countP Op.isInstallEndpointFlows = 1) :=
  ⟨by decide,
   (servicesWithSameEndpoints_lifecycle ⟨"ns", "svc1", "80", 6⟩
     ⟨"ns", "svc2", "80", 6⟩ 41 80 42 80 1001 80 (by decide) rfl).1⟩

/-- Witness for C2 at a concrete cluster-IP change from 41 to 42. -/
theorem serviceClusterIPUpdate_flows_witness :
    ((41 : Nat) ≠ 42 ∨ (80 : Nat) ≠ 80) ∧
    ((syncProxyRules (onServiceUpdate
        (syncProxyRules (readyProxier cfgDefault
          [(⟨"ns", "svc", "80", 6⟩, mkClusterIPService 41 80)]
          [(⟨"ns", "svc", "80", 6⟩, [⟨1001, 80, none⟩])])).1
        ⟨"ns", "svc", "80", 6⟩ (some (mkClusterIPService 42 80)))).2 =
      [Op.uninstallServiceFlows 41 80 6,
       Op.installServiceFlows 1 0 42 80 6 0 false false]) :=
  ⟨Or.inl (by decide),
   (serviceClusterIPUpdate_flows ⟨"ns", "svc", "80", 6⟩ 41 80 42 80 1001 80
     (Or.inl (by decide))).1⟩

/-- Witness for C8 amended at the concrete ingress-set update
{501, 502} to {502, 503}. -/
theorem externalIPRoute_refcount_amended_witness :
    ((501 : Nat) ≠ 502) ∧ ((501 : Nat) ≠ 503) ∧ ((502 : Nat) ≠ 503) ∧
    (lookupA (syncProxyRules (readyProxier cfgProxyAll
        [(⟨"ns", "svc", "80", 6⟩, c8IngService 41 80 501 502)]
        [(⟨"ns", "svc", "80", 6⟩, [⟨1001, 80, none⟩])])).1.serviceIPRouteReferences
      502 = some [⟨"ns", "svc", "80", 6⟩]) :=
  ⟨by decide, by decide, by decide,
   (externalIPRoute_refcount_amended ⟨"ns", "svc", "80", 6⟩ 41 80 501 502 503
     1001 80 (by decide) (by decide) (by decide)).2.1⟩

/-- Witness for C9 at a concrete one-service state. -/
theorem syncProxyRules_idempotent_witness :
    (((readyProxier cfgDefault
        [(⟨"ns", "svc", "80", 6⟩, mkClusterIPService 41 80)]
        []).serviceMap.map Prod.fst).Nodup) ∧
    (syncProxyRules (syncProxyRules (readyProxier cfgDefault
        [(⟨"ns", "svc", "80", 6⟩, mkClusterIPService 41 80)] [])).1 =
      ((syncProxyRules (readyProxier cfgDefault
        [(⟨"ns", "svc", "80", 6⟩, mkClusterIPService 41 80)] [])).1, [])) :=
  ⟨by decide, syncProxyRules_idempotent _ (by decide)⟩

/-- Witness for C5 at a concrete affinity service with input 70000 seconds:
the emitted flow carries 65535 = min 70000 65535. -/
theorem sessionAffinity_timeout_clamped_witness :
    (Op.installServiceFlows 1 0 10 80 6 65535 false false ∈
      (syncProxyRules (readyProxier cfgProxyAll
        [(⟨"ns", "svc", "p", 6⟩, affinityService 10 80 0 70000)]
        [(⟨"ns", "svc", "p", 6⟩, [⟨5, 8080, none⟩])])).2) ∧
    (65535 : Nat) = min 70000 65535 :=
  ⟨by decide,
   sessionAffinity_timeout_clamped ⟨"ns", "svc", "p", 6⟩ 10 80 0 70000 5 8080
     1 0 10 80 6 65535 false false (by decide)⟩
